import Mathlib

/-!
Shallow embedding of `cmd/vgpu-monitor/metrics.go` from the
volcano-vgpu-device-plugin repository: the `ClusterManagerCollector.Collect`
method, modelled as a pure function from the results of its external
collaborators (NVML driver calls, pod lister, container lister) to the
sequence of Prometheus samples sent on the output channel.

A Go panic (string slice out of range on `c.Info.DeviceUUID(i)[0:40]`)
is modelled as `Option.none` for the whole call; every NVML call is
modelled by the pair of its Go return value and a Boolean that is `true`
exactly when the call returned `nvml.SUCCESS`.
-/

set_option maxRecDepth 10000

/-- One Prometheus sample sent on the channel by `Collect`: the metric
(descriptor) name, the numeric value (all values in the source are exact
integers cast to float64), and the label values in descriptor order. -/
structure Sample where
  metric : String
  value : Int
  labels : List String
deriving DecidableEq, Repr

/-- Results of the NVML driver calls made by `Collect`. Each fallible call is
the pair of its Go value and a Bool that is `true` exactly when the call
returned `nvml.SUCCESS`; the value component is whatever the call returned,
whether or not the code consults it (as in Go, where `uuid, nvret := hdev.GetUUID()`
binds the string even when `nvret != nvml.SUCCESS`). -/
structure Nvml where
  initRet : Bool
  deviceGetCount : Nat × Bool
  getHandle : Nat → Bool
  getMemoryInfo : Nat → Nat × Bool
  getUUID : Nat → String × Bool
  getUtilization : Nat → Nat × Bool

/-- The per-container device information behind `c.Info` (pkg/monitor/nvidia
container lister): per-slot accessors indexed by device slot, and the
container-wide `LastKernelTime()`. -/
structure ContainerInfo where
  deviceNum : Nat
  deviceUUID : Nat → String
  deviceMemoryTotal : Nat → Nat
  deviceMemoryLimit : Nat → Nat
  deviceMemoryContextSize : Nat → Nat
  deviceMemoryModuleSize : Nat → Nat
  deviceMemoryBufferSize : Nat → Nat
  deviceMemoryOffset : Nat → Nat
  deviceSmUtil : Nat → Nat
  lastKernelTime : Int

/-- One entry of `containerLister.ListContainers()`: pod UID, container name,
and the optional `Info` pointer (`none` models a nil `c.Info`). -/
structure ContainerUsage where
  podUID : String
  containerName : String
  info : Option ContainerInfo

/-- One pod returned by `PodLister.List(labels.Everything())`: UID, name,
namespace, labels, and the names of the containers in `pod.Spec.Containers`. -/
structure Pod where
  uid : String
  name : String
  nameSpace : String
  labels : List (String × String)
  specContainers : List String

/-- All inputs of one `Collect` call: whether `containerLister.Update()`
returned an error (only logged), the NVML call results, the pod-lister result
(`none` models a `List` error, after which `pods` is nil), `time.Now().Unix()`,
and the records returned by `containerLister.ListContainers()`. -/
structure CollectInput where
  updateErr : Bool
  nvml : Nvml
  podListResult : Option (List Pod)
  nowSec : Int
  containers : List ContainerUsage

/-- Sequences a list of emission results in order, concatenating the emitted
samples; `none` (a Go panic inside one iteration) aborts the whole result, as
a panic aborts the surrounding loop in Go. -/
def collectAll {α : Type} : List (Option (List α)) → Option (List α)
  | [] => some []
  | none :: _ => none
  | some s :: rest => (collectAll rest).map (fun t => s ++ t)

/-- The body of the host-device loop of `Collect` for device index `ii`:
`memoryUsed` defaults to 0 when `GetMemoryInfo` fails; the memory sample is
emitted only when `GetUUID` succeeded; the utilization sample is emitted
(with the same `uuid` variable) whenever `GetUtilizationRates` succeeded. -/
def collectDevice (nv : Nvml) (ii : Nat) : List Sample :=
  let memoryUsed : Nat := if (nv.getMemoryInfo ii).2 then (nv.getMemoryInfo ii).1 else 0
  let uuid := (nv.getUUID ii).1
  (if (nv.getUUID ii).2 then
    [{ metric := "HostGPUMemoryUsage", value := memoryUsed,
       labels := [toString ii, uuid] }]
   else []) ++
  (if (nv.getUtilization ii).2 then
    [{ metric := "HostCoreUtilization", value := (nv.getUtilization ii).1,
       labels := [toString ii, uuid] }]
   else [])

/-- The host-device portion of `Collect`: when `DeviceGetCount` succeeds, loop
`ii` over `[0, devnum)`; a failed count skips the loop entirely. -/
def hostSamples (nv : Nvml) : List Sample :=
  if nv.deviceGetCount.2 then
    (List.range nv.deviceGetCount.1).flatMap (collectDevice nv)
  else []

/-- The body of the per-slot loop of `Collect` for a matched container:
`uuid := c.Info.DeviceUUID(i)[0:40]` panics (modelled as `none`) when the
UUID string has fewer than 40 characters; otherwise the four unconditional
samples are emitted, then the last-kernel sample when `lastKernelTime > 0`,
its value `nowSec - lastKernelTime` clamped below at 0. -/
def slotSamples (nowSec : Int) (pod : Pod) (ctrName : String)
    (info : ContainerInfo) (i : Nat) : Option (List Sample) :=
  if 40 ≤ (info.deviceUUID i).length then
    let uuid := (info.deviceUUID i).take 40
    some
      ([{ metric := "vGPU_device_memory_usage_in_bytes",
          value := info.deviceMemoryTotal i,
          labels := [pod.nameSpace, pod.name, ctrName, toString i, uuid] },
        { metric := "vGPU_device_memory_limit_in_bytes",
          value := info.deviceMemoryLimit i,
          labels := [pod.nameSpace, pod.name, ctrName, toString i, uuid] },
        { metric := "Device_memory_desc_of_container",
          value := info.deviceMemoryTotal i,
          labels := [pod.nameSpace, pod.name, ctrName, toString i, uuid,
                     toString (info.deviceMemoryContextSize i),
                     toString (info.deviceMemoryModuleSize i),
                     toString (info.deviceMemoryBufferSize i),
                     toString (info.deviceMemoryOffset i)] },
        { metric := "Device_utilization_desc_of_container",
          value := info.deviceSmUtil i,
          labels := [pod.nameSpace, pod.name, ctrName, toString i, uuid] }] ++
       (if 0 < info.lastKernelTime then
          [{ metric := "Device_last_kernel_of_container",
             value := if nowSec - info.lastKernelTime < 0 then 0
                      else nowSec - info.lastKernelTime,
             labels := [pod.nameSpace, pod.name, ctrName, toString i, uuid] }]
        else []))
  else none

/-- `pod.Labels` normalization computed by `Collect` (every `-` replaced by
`_` in both keys and values); the resulting map is built but never attached
to any emitted sample in the source. -/
def podLabelsNormalized (labels : List (String × String)) : List (String × String) :=
  labels.map (fun kv => (kv.1.replace "-" "_", kv.2.replace "-" "_"))

/-- The body of the container loop of `Collect` for one pod and one lister
record: skip when `c.Info` is nil; skip when `pod.UID` differs from
`c.PodUID` (exact string comparison); then for each container declared in
`pod.Spec.Containers` whose name equals `c.ContainerName`, emit the per-slot
samples for slots `[0, DeviceNum())`. -/
def matchSamples (nowSec : Int) (pod : Pod) (c : ContainerUsage) : Option (List Sample) :=
  match c.info with
  | none => some []
  | some info =>
    if pod.uid = c.podUID then
      collectAll (pod.specContainers.map (fun ctr =>
        if ctr = c.containerName then
          collectAll ((List.range info.deviceNum).map
            (slotSamples nowSec pod c.containerName info))
        else some []))
    else some []

/-- One iteration of the outer pod loop: run the container loop over all
lister records for this pod, in lister order. -/
def podCtrSamples (nowSec : Int) (containers : List ContainerUsage) (pod : Pod) :
    Option (List Sample) :=
  collectAll (containers.map (matchSamples nowSec pod))

/-- The per-container portion of `Collect`: the pod loop over the lister
records, pods outermost in pod-list order. -/
def ctrPart (nowSec : Int) (pods : List Pod) (containers : List ContainerUsage) :
    Option (List Sample) :=
  collectAll (pods.map (podCtrSamples nowSec containers))

/-- The whole `Collect` call: host-device samples first, then the
pod/container join samples; a pod-lister error leaves `pods` nil; the
`Update()` error and the NVML `Init` error are logged but never consulted. -/
def collect (inp : CollectInput) : Option (List Sample) :=
  let host := hostSamples inp.nvml
  let pods := inp.podListResult.getD []
  (ctrPart inp.nowSec pods inp.containers).map (fun t => host ++ t)

/-! ### Helper lemmas -/

theorem collectAll_none_cons {α : Type} (rest : List (Option (List α))) :
    collectAll (none :: rest) = none := rfl

theorem collectAll_some_cons {α : Type} (u : List α) (rest : List (Option (List α))) :
    collectAll (some u :: rest) = (collectAll rest).map (fun t => u ++ t) := rfl

theorem collectAll_mem {α : Type} {l : List (Option (List α))} {s : List α} {x : α}
    (h : collectAll l = some s) (hx : x ∈ s) :
    ∃ o ∈ l, ∃ t, o = some t ∧ x ∈ t := by
  induction l generalizing s with
  | nil =>
    simp only [collectAll, Option.some.injEq] at h
    subst h
    cases hx
  | cons o rest ih =>
    cases o with
    | none => exact Option.noConfusion (collectAll_none_cons rest ▸ h)
    | some u =>
      rw [collectAll_some_cons] at h
      cases hr : collectAll rest with
      | none => rw [hr] at h; exact Option.noConfusion h
      | some t =>
        rw [hr] at h
        simp only [Option.map_some', Option.some.injEq] at h
        subst h
        rcases List.mem_append.mp hx with hxu | hxt
        · exact ⟨some u, List.mem_cons_self _ _, u, rfl, hxu⟩
        · obtain ⟨o2, ho2, t2, ht2, hx2⟩ := ih hr hxt
          exact ⟨o2, List.mem_cons_of_mem _ ho2, t2, ht2, hx2⟩

theorem collectAll_eq_flatMap {α β : Type} (xs : List β) (f : β → Option (List α))
    (g : β → List α) (h : ∀ a ∈ xs, f a = some (g a)) :
    collectAll (xs.map f) = some (xs.flatMap g) := by
  induction xs with
  | nil => rfl
  | cons a rest ih =>
    have ha := h a (List.mem_cons_self _ _)
    have hrest := ih (fun b hb => h b (List.mem_cons_of_mem _ hb))
    rw [List.map_cons, ha, collectAll_some_cons, hrest, List.flatMap_cons]
    rfl

theorem collectAll_all_nil {α : Type} (l : List (Option (List α)))
    (h : ∀ o ∈ l, o = some []) : collectAll l = some [] := by
  induction l with
  | nil => rfl
  | cons o rest ih =>
    have ho := h o (List.mem_cons_self _ _)
    subst ho
    have hr := ih (fun b hb => h b (List.mem_cons_of_mem _ hb))
    rw [collectAll_some_cons, hr]
    rfl

theorem collectAll_middle_nil {α : Type} (a b : List (Option (List α))) :
    collectAll (a ++ some [] :: b) = collectAll (a ++ b) := by
  induction a with
  | nil =>
    rw [List.nil_append, List.nil_append, collectAll_some_cons]
    cases hb : collectAll b <;> simp
  | cons o rest ih =>
    cases o with
    | none => rfl
    | some u =>
      rw [List.cons_append, List.cons_append, collectAll_some_cons,
        collectAll_some_cons, ih]

/-- Membership in the samples of one host-device loop iteration, fully
characterized by the outcome of the three per-device reads. -/
theorem mem_collectDevice {nv : Nvml} {ii : Nat} {x : Sample} :
    x ∈ collectDevice nv ii ↔
      ((nv.getUUID ii).2 = true ∧
        x = { metric := "HostGPUMemoryUsage",
              value := ((if (nv.getMemoryInfo ii).2 then (nv.getMemoryInfo ii).1 else 0 : Nat) : Int),
              labels := [toString ii, (nv.getUUID ii).1] }) ∨
      ((nv.getUtilization ii).2 = true ∧
        x = { metric := "HostCoreUtilization",
              value := ((nv.getUtilization ii).1 : Int),
              labels := [toString ii, (nv.getUUID ii).1] }) := by
  unfold collectDevice
  cases hu : (nv.getUUID ii).2 <;> cases ht : (nv.getUtilization ii).2 <;>
    simp [hu, ht, List.mem_append]

/-! ### C1 -/

/-- A concrete NVML state with a single device whose UUID read fails while
its memory and utilization reads succeed. -/
def nvC1 : Nvml :=
  { initRet := true, deviceGetCount := (1, true), getHandle := fun _ => true,
    getMemoryInfo := fun _ => (5, true), getUUID := fun _ => ("", false),
    getUtilization := fun _ => (7, true) }

/-- C1 counterexample: with the UUID read of device 0 failing and its
utilization read succeeding, `Collect` does emit a `HostCoreUtilization`
sample for that device, contradicting the claim that no `HostCoreUtilization`
sample is emitted when the UUID read fails. -/
theorem C1_counterexample :
    (nvC1.getUUID 0).2 = false ∧ (nvC1.getUtilization 0).2 = true ∧
    hostSamples nvC1 =
      [{ metric := "HostCoreUtilization", value := 7, labels := ["0", ""] }] := by
  decide

/-- C1 amended: when a device's UUID read fails, no `HostGPUMemoryUsage`
sample is emitted for that device, but a `HostCoreUtilization` sample is
still emitted whenever the utilization read succeeds (labelled with the
string value returned by the failed UUID call); the samples of any device
depend only on that device's own reads, so all other devices are
unaffected. -/
theorem C1_uuid_fail (nv : Nvml) (ii : Nat) (h : (nv.getUUID ii).2 = false) :
    (∀ x ∈ collectDevice nv ii, x.metric ≠ "HostGPUMemoryUsage") ∧
    ((nv.getUtilization ii).2 = true →
      { metric := "HostCoreUtilization", value := ((nv.getUtilization ii).1 : Int),
        labels := [toString ii, (nv.getUUID ii).1] } ∈ collectDevice nv ii) ∧
    (∀ nv2 : Nvml, ∀ jj : Nat, nv.getMemoryInfo jj = nv2.getMemoryInfo jj →
      nv.getUUID jj = nv2.getUUID jj → nv.getUtilization jj = nv2.getUtilization jj →
      collectDevice nv jj = collectDevice nv2 jj) := by
  refine ⟨?_, ?_, ?_⟩
  · intro x hx
    rcases mem_collectDevice.mp hx with ⟨hu, _⟩ | ⟨_, rfl⟩
    · rw [h] at hu; cases hu
    · simp
  · intro hu
    exact mem_collectDevice.mpr (Or.inr ⟨hu, rfl⟩)
  · intro nv2 jj h1 h2 h3
    unfold collectDevice
    rw [h1, h2, h3]

/-- C1 witness at a concrete input. -/
theorem C1_uuid_fail_witness :
    { metric := "HostCoreUtilization", value := (7 : Int), labels := ["0", ""] }
      ∈ collectDevice nvC1 0 :=
  (C1_uuid_fail nvC1 0 (by decide)).2.1 (by decide)

/-! ### C2 -/

/-- A concrete NVML state with a single device whose memory read fails while
its UUID read succeeds and its utilization read fails. -/
def nvC2 : Nvml :=
  { initRet := true, deviceGetCount := (1, true), getHandle := fun _ => true,
    getMemoryInfo := fun _ => (123, false), getUUID := fun _ => ("U", true),
    getUtilization := fun _ => (9, false) }

/-- C2 counterexample: with the memory read of device 0 failing and its UUID
read succeeding, `Collect` still emits a `HostGPUMemoryUsage` sample for the
device, with the substitute value 0 — contradicting the claim that the
metric is omitted rather than emitted with a substitute value. -/
theorem C2_counterexample :
    (nvC2.getMemoryInfo 0).2 = false ∧
    hostSamples nvC2 =
      [{ metric := "HostGPUMemoryUsage", value := 0, labels := ["0", "U"] }] := by
  decide

/-- C2 amended: when a device's memory read fails, the `HostGPUMemoryUsage`
sample is still emitted, with substitute value 0, whenever the UUID read
succeeds; a failed utilization read omits only the `HostCoreUtilization`
sample for that device. -/
theorem C2_mem_fail (nv : Nvml) (ii : Nat) (hm : (nv.getMemoryInfo ii).2 = false) :
    ((nv.getUUID ii).2 = true →
      { metric := "HostGPUMemoryUsage", value := 0,
        labels := [toString ii, (nv.getUUID ii).1] } ∈ collectDevice nv ii) ∧
    ((nv.getUtilization ii).2 = false →
      ∀ x ∈ collectDevice nv ii, x.metric ≠ "HostCoreUtilization") := by
  constructor
  · intro hu
    refine mem_collectDevice.mpr (Or.inl ⟨hu, ?_⟩)
    rw [hm]
    rfl
  · intro hutil x hx
    rcases mem_collectDevice.mp hx with ⟨_, rfl⟩ | ⟨hu, _⟩
    · simp
    · rw [hutil] at hu; cases hu

/-- C2 witness at a concrete input. -/
theorem C2_mem_fail_witness :
    { metric := "HostGPUMemoryUsage", value := (0 : Int), labels := ["0", "U"] }
      ∈ collectDevice nvC2 0 :=
  (C2_mem_fail nvC2 0 (by decide)).1 (by decide)

/-! ### C6 -/

/-- C6 confirmed: for a device whose memory read succeeds with used value `M`
and whose UUID read succeeds with value `u`, `Collect` emits a
`HostGPUMemoryUsage` gauge sample of value `M` labelled with the decimal
string of the device index and with `u`. -/
theorem C6_host_memory_sample (nv : Nvml) (ii M : Nat) (u : String)
    (hc : nv.deviceGetCount.2 = true) (hii : ii < nv.deviceGetCount.1)
    (hm : nv.getMemoryInfo ii = (M, true)) (hu : nv.getUUID ii = (u, true)) :
    { metric := "HostGPUMemoryUsage", value := (M : Int),
      labels := [toString ii, u] } ∈ hostSamples nv := by
  unfold hostSamples
  rw [hc, if_pos rfl]
  refine List.mem_flatMap.mpr ⟨ii, List.mem_range.mpr hii, ?_⟩
  refine mem_collectDevice.mpr (Or.inl ?_)
  rw [hm, hu]
  exact ⟨rfl, rfl⟩

/-- A concrete NVML state with a single fully healthy device. -/
def nvC6 : Nvml :=
  { initRet := true, deviceGetCount := (1, true), getHandle := fun _ => true,
    getMemoryInfo := fun _ => (5, true), getUUID := fun _ => ("GPU-A", true),
    getUtilization := fun _ => (7, true) }

/-- C6 witness at a concrete input. -/
theorem C6_host_memory_sample_witness :
    { metric := "HostGPUMemoryUsage", value := (5 : Int), labels := ["0", "GPU-A"] }
      ∈ hostSamples nvC6 :=
  C6_host_memory_sample nvC6 0 5 "GPU-A" (by decide) (by decide) (by decide) (by decide)

/-! ### Per-slot sample shape -/

/-- Every sample emitted for a matched container's device slot carries the
pod namespace, pod name and container name as its first three labels, the
decimal slot index as its fourth, and the 40-character UUID prefix as its
fifth. -/
theorem slotSamples_mem {nowSec : Int} {pod : Pod} {ctrName : String}
    {info : ContainerInfo} {i : Nat} {l : List Sample} {x : Sample}
    (h : slotSamples nowSec pod ctrName info i = some l) (hx : x ∈ l) :
    x.labels.take 3 = [pod.nameSpace, pod.name, ctrName] ∧
    x.labels.getD 3 "" = toString i ∧
    x.labels.getD 4 "" = (info.deviceUUID i).take 40 := by
  unfold slotSamples at h
  split at h
  case isFalse => cases h
  case isTrue hlen =>
    simp only [Option.some.injEq] at h
    subst h
    simp only [List.mem_append, List.mem_cons, List.not_mem_nil, or_false] at hx
    rcases hx with (rfl | rfl | rfl | rfl) | hx
    · exact ⟨rfl, rfl, by simp [List.getD]⟩
    · exact ⟨rfl, rfl, by simp [List.getD]⟩
    · exact ⟨rfl, rfl, by simp [List.getD]⟩
    · exact ⟨rfl, rfl, by simp [List.getD]⟩
    · split at hx
      · simp only [List.mem_cons, List.not_mem_nil, or_false] at hx
        subst hx
        exact ⟨rfl, rfl, by simp [List.getD]⟩
      · cases hx

/-! ### C3 -/

/-- C3 confirmed: every per-container sample produced by the join loop is
attributable to a pod in the pod list and a lister record with equal
`podUID` (exact string equality) whose container name occurs in the pod's
spec (exact string equality), the attribution being visible in the sample's
first three labels; and when no pod/record pair matches on both keys, the
join produces no sample and no panic. -/
theorem C3_inner_join (nowSec : Int) (pods : List Pod)
    (containers : List ContainerUsage) :
    (∀ s, ctrPart nowSec pods containers = some s → ∀ x ∈ s,
      ∃ pod ∈ pods, ∃ c ∈ containers,
        pod.uid = c.podUID ∧ c.containerName ∈ pod.specContainers ∧
        x.labels.take 3 = [pod.nameSpace, pod.name, c.containerName]) ∧
    ((∀ pod ∈ pods, ∀ c ∈ containers,
        ¬(pod.uid = c.podUID ∧ c.containerName ∈ pod.specContainers)) →
      ctrPart nowSec pods containers = some []) := by
  constructor
  · intro s hs x hx
    unfold ctrPart at hs
    obtain ⟨o, ho, t, hot, hxt⟩ := collectAll_mem hs hx
    rw [List.mem_map] at ho
    obtain ⟨pod, hpod, rfl⟩ := ho
    unfold podCtrSamples at hot
    obtain ⟨o2, ho2, t2, hot2, hxt2⟩ := collectAll_mem hot hxt
    rw [List.mem_map] at ho2
    obtain ⟨c, hc, rfl⟩ := ho2
    refine ⟨pod, hpod, c, hc, ?_⟩
    unfold matchSamples at hot2
    split at hot2
    · simp only [Option.some.injEq] at hot2
      subst hot2
      cases hxt2
    case h_2 info hinfo =>
      split at hot2
      case isFalse =>
        simp only [Option.some.injEq] at hot2
        subst hot2
        cases hxt2
      case isTrue huid =>
        obtain ⟨o3, ho3, t3, hot3, hxt3⟩ := collectAll_mem hot2 hxt2
        rw [List.mem_map] at ho3
        obtain ⟨ctr, hctr, rfl⟩ := ho3
        by_cases hname : ctr = c.containerName
        · rw [if_pos hname] at hot3
          obtain ⟨o4, ho4, t4, hot4, hxt4⟩ := collectAll_mem hot3 hxt3
          rw [List.mem_map] at ho4
          obtain ⟨i, hi, rfl⟩ := ho4
          exact ⟨huid, hname ▸ hctr, (slotSamples_mem hot4 hxt4).1⟩
        · rw [if_neg hname] at hot3
          simp only [Option.some.injEq] at hot3
          subst hot3
          cases hxt3
  · intro h
    unfold ctrPart
    apply collectAll_all_nil
    intro o ho
    rw [List.mem_map] at ho
    obtain ⟨pod, hpod, rfl⟩ := ho
    unfold podCtrSamples
    apply collectAll_all_nil
    intro o2 ho2
    rw [List.mem_map] at ho2
    obtain ⟨c, hc, rfl⟩ := ho2
    unfold matchSamples
    split
    · rfl
    case h_2 info hinfo =>
      by_cases huid : pod.uid = c.podUID
      · rw [if_pos huid]
        apply collectAll_all_nil
        intro o3 ho3
        rw [List.mem_map] at ho3
        obtain ⟨ctr, hctr, rfl⟩ := ho3
        have hname : ctr ≠ c.containerName := by
          intro hn
          exact h pod hpod c hc ⟨huid, hn ▸ hctr⟩
        rw [if_neg hname]
      · rw [if_neg huid]

/-- C3 witness at a concrete input: one pod and one record with different
UIDs produce the empty sample list without error. -/
theorem C3_inner_join_witness :
    ctrPart 0
      [{ uid := "p1", name := "pod-a", nameSpace := "ns", labels := [],
         specContainers := ["c1"] }]
      [{ podUID := "p2", containerName := "c1", info := none }] = some [] :=
  (C3_inner_join 0 _ _).2 (by decide)

/-! ### C10 -/

/-- C10 confirmed: a lister record whose `Info` pointer is nil contributes no
samples for any pod, and removing such a record from the lister output leaves
the whole join result (including success/panic behaviour) unchanged — the
loop just continues with the remaining records. -/
theorem C10_nil_info (nowSec : Int) (pods : List Pod)
    (pre post : List ContainerUsage) (r : ContainerUsage) (h : r.info = none) :
    (∀ pod : Pod, matchSamples nowSec pod r = some []) ∧
    ctrPart nowSec pods (pre ++ r :: post) = ctrPart nowSec pods (pre ++ post) := by
  have hm : ∀ pod : Pod, matchSamples nowSec pod r = some [] := by
    intro pod
    unfold matchSamples
    rw [h]
  refine ⟨hm, ?_⟩
  unfold ctrPart
  congr 1
  apply List.map_congr_left
  intro pod _
  unfold podCtrSamples
  rw [List.map_append, List.map_cons, hm pod, collectAll_middle_nil,
    ← List.map_append]

/-- C10 witness at a concrete input. -/
theorem C10_nil_info_witness :
    matchSamples 0
      { uid := "p1", name := "pod-a", nameSpace := "ns", labels := [],
        specContainers := ["c1"] }
      { podUID := "p1", containerName := "c1", info := none } = some [] :=
  (C10_nil_info 0 [] [] [] { podUID := "p1", containerName := "c1", info := none }
    rfl).1 _

/-! ### Concrete fixtures shared by the container-side claims -/

/-- A 40-character device UUID string. -/
def uuid40 : String := "GPU-00000000-1111-2222-3333-444444444444"

/-- Container info of the concrete scenario of the spec: one device slot,
memory total 1024, memory limit 2048, SM utilization 55, no kernel observed
yet. -/
def infoC7 : ContainerInfo :=
  { deviceNum := 1, deviceUUID := fun _ => uuid40,
    deviceMemoryTotal := fun _ => 1024, deviceMemoryLimit := fun _ => 2048,
    deviceMemoryContextSize := fun _ => 0, deviceMemoryModuleSize := fun _ => 0,
    deviceMemoryBufferSize := fun _ => 0, deviceMemoryOffset := fun _ => 0,
    deviceSmUtil := fun _ => 55, lastKernelTime := 0 }

/-- The pod of the concrete scenario. -/
def podC7 : Pod :=
  { uid := "p1", name := "pod-a", nameSpace := "ns", labels := [],
    specContainers := ["c1"] }

/-- The matching lister record of the concrete scenario. -/
def cC7 : ContainerUsage :=
  { podUID := "p1", containerName := "c1", info := some infoC7 }

/-- An NVML state reporting zero devices, so that no host samples are
emitted. -/
def nvOff : Nvml :=
  { initRet := true, deviceGetCount := (0, true), getHandle := fun _ => true,
    getMemoryInfo := fun _ => (0, false), getUUID := fun _ => ("", false),
    getUtilization := fun _ => (0, false) }

/-- The full collect input of the concrete scenario. -/
def inpC7 : CollectInput :=
  { updateErr := false, nvml := nvOff, podListResult := some [podC7],
    nowSec := 1000, containers := [cC7] }

/-! ### C4 -/

/-- The scenario record with a device UUID shorter than 40 characters. -/
def infoShort : ContainerInfo :=
  { infoC7 with deviceUUID := fun _ => "short-uuid" }

/-- The collect input of the concrete scenario, with the short UUID. -/
def inpC4 : CollectInput :=
  { inpC7 with containers := [{ cC7 with info := some infoShort }] }

/-- C4 counterexample: a matched container whose device UUID has fewer than
40 characters makes `Collect` fail (the Go slice `[0:40]` panics, modelled as
`none`), contradicting the claim that a short UUID must not make `Collect`
fail. -/
theorem C4_counterexample :
    (infoShort.deviceUUID 0).length < 40 ∧ collect inpC4 = none := by
  decide

/-- C4 amended: for a matched container device slot whose UUID has at least
40 characters, samples are emitted and each carries exactly the first 40
characters of the UUID as its `deviceuuid` label; a UUID shorter than 40
characters panics (no sample list is produced). -/
theorem C4_uuid_label (nowSec : Int) (pod : Pod) (ctrName : String)
    (info : ContainerInfo) (i : Nat) :
    (40 ≤ (info.deviceUUID i).length →
      ∃ l, slotSamples nowSec pod ctrName info i = some l ∧ l ≠ [] ∧
        ∀ x ∈ l, x.labels.getD 4 "" = (info.deviceUUID i).take 40) ∧
    ((info.deviceUUID i).length < 40 →
      slotSamples nowSec pod ctrName info i = none) := by
  constructor
  · intro hlen
    cases hslot : slotSamples nowSec pod ctrName info i with
    | none =>
      unfold slotSamples at hslot
      rw [if_pos hlen] at hslot
      cases hslot
    | some l =>
      refine ⟨l, rfl, ?_, fun x hx => (slotSamples_mem hslot hx).2.2⟩
      unfold slotSamples at hslot
      rw [if_pos hlen] at hslot
      simp only [Option.some.injEq] at hslot
      subst hslot
      simp
  · intro hlen
    unfold slotSamples
    rw [if_neg (by omega)]

/-- C4 witness at a concrete input. -/
theorem C4_uuid_label_witness :
    ∃ l, slotSamples 1000 podC7 "c1" infoC7 0 = some l ∧ l ≠ [] ∧
      ∀ x ∈ l, x.labels.getD 4 "" = (infoC7.deviceUUID 0).take 40 :=
  (C4_uuid_label 1000 podC7 "c1" infoC7 0).1 (by decide)

/-! ### C5 -/

/-- C5 confirmed: on a matched container device slot, no
`Device_last_kernel_of_container` sample is emitted when `LastKernelTime()`
is 0; when it is positive, exactly one such sample is emitted whose value is
`nowSec` minus the last kernel time, clamped below at 0, hence never
negative. -/
theorem C5_last_kernel (nowSec : Int) (pod : Pod) (ctrName : String)
    (info : ContainerInfo) (i : Nat) (l : List Sample)
    (h : slotSamples nowSec pod ctrName info i = some l) :
    (info.lastKernelTime = 0 →
      ∀ x ∈ l, x.metric ≠ "Device_last_kernel_of_container") ∧
    (0 < info.lastKernelTime →
      ∃ x ∈ l, x.metric = "Device_last_kernel_of_container" ∧
        x.value = max (nowSec - info.lastKernelTime) 0 ∧ 0 ≤ x.value) := by
  unfold slotSamples at h
  split at h
  case isFalse => cases h
  case isTrue hlen =>
    simp only [Option.some.injEq] at h
    subst h
    constructor
    · intro h0 x hx
      simp only [h0, lt_self_iff_false, if_false, List.append_nil,
        List.mem_cons, List.not_mem_nil, or_false] at hx
      rcases hx with rfl | rfl | rfl | rfl <;> simp
    · intro hpos
      rw [if_pos hpos]
      refine ⟨{ metric := "Device_last_kernel_of_container",
                value := if nowSec - info.lastKernelTime < 0 then 0
                         else nowSec - info.lastKernelTime,
                labels := [pod.nameSpace, pod.name, ctrName, toString i,
                           (info.deviceUUID i).take 40] },
              ?_, rfl, ?_, ?_⟩
      · simp [List.mem_append]
      · rcases le_or_lt 0 (nowSec - info.lastKernelTime) with hge | hlt
        · rw [if_neg (not_lt.mpr hge), max_eq_left hge]
        · rw [if_pos hlt, max_eq_right hlt.le]
      · rcases le_or_lt 0 (nowSec - info.lastKernelTime) with hge | hlt
        · rw [if_neg (not_lt.mpr hge)]
          exact hge
        · rw [if_pos hlt]

/-- The scenario record with a last kernel time 100 seconds in the future of
the scrape's `nowSec = 1000`. -/
def infoC5 : ContainerInfo :=
  { infoC7 with lastKernelTime := 1100 }

/-- C5 witness at a concrete input: a future last kernel time yields the
clamped value 0. -/
theorem C5_last_kernel_witness :
    0 < infoC5.lastKernelTime ∧
    ∃ x ∈ (slotSamples 1000 podC7 "c1" infoC5 0).getD [],
      x.metric = "Device_last_kernel_of_container" ∧
      x.value = max ((1000 : Int) - infoC5.lastKernelTime) 0 ∧ 0 ≤ x.value :=
  ⟨by decide,
   (C5_last_kernel 1000 podC7 "c1" infoC5 0 _ (by decide)).2 (by decide)⟩

/-! ### C7 -/

/-- C7 confirmed: the concrete scenario — one pod `p1/ns/pod-a` with
container `c1`, one matching record with a single slot of memory total 1024,
limit 2048, SM utilization 55 and last kernel time 0 — yields exactly the
four per-container samples with the expected values and labels, and no
`Device_last_kernel_of_container` sample. -/
theorem C7_concrete_scenario :
    collect inpC7 = some
      [{ metric := "vGPU_device_memory_usage_in_bytes", value := 1024,
         labels := ["ns", "pod-a", "c1", "0", uuid40] },
       { metric := "vGPU_device_memory_limit_in_bytes", value := 2048,
         labels := ["ns", "pod-a", "c1", "0", uuid40] },
       { metric := "Device_memory_desc_of_container", value := 1024,
         labels := ["ns", "pod-a", "c1", "0", uuid40, "0", "0", "0", "0"] },
       { metric := "Device_utilization_desc_of_container", value := 55,
         labels := ["ns", "pod-a", "c1", "0", uuid40] }] := by
  decide

/-! ### C8 -/

/-- C8 confirmed: no collaborator error aborts `Collect`. The output is
invariant under the `Update()` error flag (stale records are used as-is) and
under the NVML `Init` result; a failed pod listing behaves exactly like an
empty pod list (host samples still emitted); whenever `Collect` returns a
sample list, the host samples assembled first are a prefix of it; and a
failed device-count read only drops the host part, the pod/container join
still runs. -/
theorem C8_error_tolerance (inp : CollectInput) :
    (∀ b : Bool, collect { inp with updateErr := b } = collect inp) ∧
    (∀ r : Bool, collect { inp with nvml := { inp.nvml with initRet := r } } =
      collect inp) ∧
    (collect { inp with podListResult := none } =
      collect { inp with podListResult := some [] }) ∧
    (∀ s, collect inp = some s → hostSamples inp.nvml <+: s) ∧
    (∀ cnt : Nat,
      collect { inp with nvml := { inp.nvml with deviceGetCount := (cnt, false) } } =
        ctrPart inp.nowSec (inp.podListResult.getD []) inp.containers) := by
  refine ⟨fun b => rfl, fun r => rfl, rfl, ?_, ?_⟩
  · intro s hs
    simp only [collect] at hs
    cases hctr : ctrPart inp.nowSec (inp.podListResult.getD []) inp.containers with
    | none => rw [hctr] at hs; cases hs
    | some t =>
      rw [hctr] at hs
      simp only [Option.map_some', Option.some.injEq] at hs
      subst hs
      exact List.prefix_append _ _
  · intro cnt
    show (ctrPart inp.nowSec (inp.podListResult.getD []) inp.containers).map
        (fun t =>
          hostSamples { inp.nvml with deviceGetCount := (cnt, false) } ++ t) = _
    have hh : hostSamples { inp.nvml with deviceGetCount := (cnt, false) } = [] := by
      unfold hostSamples
      exact if_neg (by simp)
    rw [hh]
    cases hctr : ctrPart inp.nowSec (inp.podListResult.getD []) inp.containers <;> simp

/-- C8 witness at a concrete input. -/
theorem C8_error_tolerance_witness :
    hostSamples inpC7.nvml <+:
      [{ metric := "vGPU_device_memory_usage_in_bytes", value := (1024 : Int),
         labels := ["ns", "pod-a", "c1", "0", uuid40] },
       { metric := "vGPU_device_memory_limit_in_bytes", value := 2048,
         labels := ["ns", "pod-a", "c1", "0", uuid40] },
       { metric := "Device_memory_desc_of_container", value := 1024,
         labels := ["ns", "pod-a", "c1", "0", uuid40, "0", "0", "0", "0"] },
       { metric := "Device_utilization_desc_of_container", value := 55,
         labels := ["ns", "pod-a", "c1", "0", uuid40] }] :=
  (C8_error_tolerance inpC7).2.2.2.1 _ (by decide)

/-! ### C9 -/

/-- The samples one (pod, lister-record) pair contributes, written as plain
nested flat-maps (no panic threading): empty unless the record's `Info` is
set, the UIDs match, and a spec container name matches; matched slots
contribute in ascending slot order. -/
def ctrBlock (nowSec : Int) (pod : Pod) (c : ContainerUsage) : List Sample :=
  match c.info with
  | none => []
  | some info =>
    if pod.uid = c.podUID then
      pod.specContainers.flatMap (fun ctr =>
        if ctr = c.containerName then
          (List.range info.deviceNum).flatMap
            (fun i => (slotSamples nowSec pod c.containerName info i).getD [])
        else [])
    else []

/-- The whole `Collect` output in structured form: host samples first, then
for each pod in pod-list order, for each lister record in lister order, that
pair's block. -/
def collectStructured (inp : CollectInput) : List Sample :=
  hostSamples inp.nvml ++
    (inp.podListResult.getD []).flatMap
      (fun pod => inp.containers.flatMap (ctrBlock inp.nowSec pod))

/-- All device UUIDs of all listed records (within each record's device
count) have at least 40 characters, so no slice panic occurs. -/
def uuidLenOk (containers : List ContainerUsage) : Bool :=
  containers.all (fun c =>
    match c.info with
    | none => true
    | some info =>
      (List.range info.deviceNum).all
        (fun i => decide (40 ≤ (info.deviceUUID i).length)))

theorem matchSamples_eq_ctrBlock (nowSec : Int) (pod : Pod) (c : ContainerUsage)
    (h : ∀ info, c.info = some info →
      ∀ i ∈ List.range info.deviceNum, 40 ≤ (info.deviceUUID i).length) :
    matchSamples nowSec pod c = some (ctrBlock nowSec pod c) := by
  cases hc : c.info with
  | none => simp only [matchSamples, ctrBlock, hc]
  | some info =>
    simp only [matchSamples, ctrBlock, hc]
    by_cases huid : pod.uid = c.podUID
    · rw [if_pos huid, if_pos huid]
      apply collectAll_eq_flatMap
      intro ctr _
      by_cases hname : ctr = c.containerName
      · simp only [hname, if_pos rfl]
        apply collectAll_eq_flatMap
        intro i hi
        have hlen := h info hc i hi
        cases hs : slotSamples nowSec pod c.containerName info i with
        | none =>
          unfold slotSamples at hs
          rw [if_pos hlen] at hs
          cases hs
        | some l => rfl
      · simp only [hname, if_neg, if_false]
    · rw [if_neg huid, if_neg huid]

theorem ctrPart_eq_structured (nowSec : Int) (pods : List Pod)
    (containers : List ContainerUsage) (h : uuidLenOk containers = true) :
    ctrPart nowSec pods containers =
      some (pods.flatMap (fun pod => containers.flatMap (ctrBlock nowSec pod))) := by
  unfold ctrPart
  apply collectAll_eq_flatMap
  intro pod _
  unfold podCtrSamples
  apply collectAll_eq_flatMap
  intro c hc
  apply matchSamples_eq_ctrBlock
  intro info hinfo i hi
  rw [uuidLenOk, List.all_eq_true] at h
  have h2 := h c hc
  rw [hinfo] at h2
  rw [List.all_eq_true] at h2
  exact of_decide_eq_true (h2 i hi)

theorem pairwise_le_flatMap_replicate (xs : List Nat) (k : Nat → Nat)
    (hxs : xs.Pairwise (· ≤ ·)) :
    (xs.flatMap (fun i => List.replicate (k i) i)).Pairwise (· ≤ ·) := by
  induction xs with
  | nil => exact List.Pairwise.nil
  | cons a rest ih =>
    rw [List.flatMap_cons, List.pairwise_append]
    obtain ⟨ha, hrest⟩ := List.pairwise_cons.mp hxs
    refine ⟨List.pairwise_replicate.mpr (Or.inr (le_refl a)), ih hrest, ?_⟩
    intro x hx y hy
    rw [List.mem_replicate] at hx
    obtain ⟨i, hi, hyrep⟩ := List.mem_flatMap.mp hy
    rw [List.mem_replicate] at hyrep
    rw [hx.2, hyrep.2]
    exact ha i hi

theorem map_label_flatMap (xs : List Nat) (f : Nat → List Sample)
    (g : Sample → String) (hf : ∀ i : Nat, ∀ x ∈ f i, g x = toString i) :
    (xs.flatMap f).map g =
      (xs.flatMap (fun i => List.replicate (f i).length i)).map
        (fun n : Nat => toString n) := by
  induction xs with
  | nil => rfl
  | cons a rest ih =>
    rw [List.flatMap_cons, List.flatMap_cons, List.map_append, List.map_append, ih]
    congr 1
    have he : (f a).map g = List.replicate ((f a).map g).length (toString a) := by
      refine List.eq_replicate_length.mpr ?_
      intro b hb
      obtain ⟨x, hx, rfl⟩ := List.mem_map.mp hb
      exact hf a x hx
    rw [he, List.length_map, List.map_replicate]

/-- C9 confirmed (given that no UUID is short enough to panic): the sample
sequence of one `Collect` call equals its structured form — all host samples
first, then per-container samples grouped by pod in pod-list order, then by
lister record, then by container match; host samples carry ascending decimal
device indices, and within each container match the slot indices ascend. -/
theorem C9_ordering (inp : CollectInput) (h : uuidLenOk inp.containers = true) :
    collect inp = some (collectStructured inp) ∧
    (∃ ks : List Nat, ks.Pairwise (· ≤ ·) ∧
      (hostSamples inp.nvml).map (fun x => x.labels.headD "") =
        ks.map (fun n : Nat => toString n)) ∧
    (∀ pod : Pod, ∀ ctrName : String, ∀ info : ContainerInfo,
      ∃ ks : List Nat, ks.Pairwise (· ≤ ·) ∧
        ((List.range info.deviceNum).flatMap
            (fun i => (slotSamples inp.nowSec pod ctrName info i).getD [])).map
          (fun x => x.labels.getD 3 "") = ks.map (fun n : Nat => toString n)) := by
  refine ⟨?_, ?_, ?_⟩
  · show (ctrPart inp.nowSec (inp.podListResult.getD []) inp.containers).map
      (fun t => hostSamples inp.nvml ++ t) = _
    rw [ctrPart_eq_structured _ _ _ h]
    rfl
  · unfold hostSamples
    split
    · refine ⟨(List.range inp.nvml.deviceGetCount.1).flatMap
          (fun ii => List.replicate (collectDevice inp.nvml ii).length ii),
        pairwise_le_flatMap_replicate _ _ (List.sorted_le_range _), ?_⟩
      apply map_label_flatMap
      intro ii x hx
      rcases mem_collectDevice.mp hx with ⟨_, rfl⟩ | ⟨_, rfl⟩ <;> rfl
    · exact ⟨[], List.Pairwise.nil, rfl⟩
  · intro pod ctrName info
    refine ⟨(List.range info.deviceNum).flatMap
        (fun i => List.replicate
          ((slotSamples inp.nowSec pod ctrName info i).getD []).length i),
      pairwise_le_flatMap_replicate _ _ (List.sorted_le_range _), ?_⟩
    apply map_label_flatMap
    intro i x hx
    cases hs : slotSamples inp.nowSec pod ctrName info i with
    | none => rw [hs] at hx; cases hx
    | some l =>
      rw [hs] at hx
      exact (slotSamples_mem hs hx).2.1

/-- C9 witness at a concrete input. -/
theorem C9_ordering_witness : collect inpC7 = some (collectStructured inpC7) :=
  (C9_ordering inpC7 (by decide)).1
